import Mathlib

/-!
Shallow embedding of `mkimg.py`, a wrapper around mkosi and btrfs that
drives a workspace lifecycle (init / build / clean / destroy / info /
summary) and a build pipeline (create subvolume, populate it, freeze it,
compress it to a send stream).

External effects are modelled explicitly:
  * `Env` captures the execution environment (privilege, which binaries
    resolve on PATH, whether the working directory is on btrfs, whether
    the SUDO_UID/SUDO_GID variables are set, whether mkosi produces its
    staging tree).
  * `WS` is the workspace filesystem state the program manages: top-level
    files and directories, the subvolumes under `build/` and the
    artifacts under `streams/`.
  * Each entry point returns an `Outcome` (normal return, a controlled
    `die` with a diagnostic and exit 1, or an uncaught Python exception),
    the resulting workspace state, and a trace of effect `Event`s in the
    order the program performs them.
-/

namespace Mkimg

/-- Result of running one entry point: normal completion, a controlled
`die(msg)` (diagnostic on stderr, exit status 1), or an uncaught Python
exception (traceback, no controlled diagnostic). -/
inductive Outcome (α : Type) where
  | ok (a : α)
  | died (msg : String)
  | uncaught (exc : String)
  deriving DecidableEq, Repr

/-- Execution environment outside the managed workspace. -/
structure Env where
  isRoot : Bool
  cwdIsBtrfs : Bool
  hasBtrfs : Bool
  hasMkosi : Bool
  hasZstd : Bool
  hasGzip : Bool
  sudoVars : Bool
  mkosiOk : Bool
  deriving DecidableEq, Repr

/-- Managed workspace state: top-level files, top-level directories,
entries under `build/` (subvolume names), entries under `streams/` and
`services/`. -/
structure WS where
  files : List String
  dirs : List String
  volumes : List String
  streamsFiles : List String
  servicesFiles : List String
  deriving DecidableEq, Repr

/-- Externally visible effects, in program order. -/
inductive Event where
  | preflight
  | genCid
  | btrfsCreate (v : String)
  | btrfsDelete (v : String)
  | btrfsSetRO (v : String)
  | removeFile (f : String)
  | rmTree (d : String)
  | mkdirEv (d : String)
  | writeFile (f : String)
  | touchLock
  | runMkosi
  | writeOsRelease
  | copyTree
  | compressEv (src dst : String)
  | msg (m : String)
  deriving DecidableEq, Repr

/-- The binaries required by `check_binaries` in source order. -/
def apps : List String := ["btrfs", "mkosi", "zstd", "gzip"]

/-- Model of `shutil.which` over the environment. -/
def which (e : Env) (a : String) : Bool :=
  if a = "btrfs" then e.hasBtrfs
  else if a = "mkosi" then e.hasMkosi
  else if a = "zstd" then e.hasZstd
  else if a = "gzip" then e.hasGzip
  else false

/-- One report line of `check_binaries`. -/
def binLine (name : String) (present : Bool) : String :=
  if present then "          Binary " ++ name ++ " exists: YES\n"
  else "          Binary " ++ name ++ " exists: NO\n"

/-- `check_binaries` from the source: iterates over the four apps,
accumulating one report line per app, and assigns `status` from the
current app on every iteration, so the returned flag is overwritten each
time round the loop and ends up reflecting only the last app (`gzip`). -/
def check_binaries (e : Env) : List String × Bool :=
  apps.foldl (fun acc a => (acc.1 ++ [binLine a (which e a)], which e a)) ([], true)

/-- `check_btrfs` runs `btrfs inspect-internal rootid .`; exit 0 means the
working directory is on btrfs.  If the `btrfs` binary is absent,
`subprocess.run` raises `FileNotFoundError`, which nothing catches. -/
def check_btrfs (e : Env) : Outcome Bool :=
  if e.hasBtrfs then .ok e.cwdIsBtrfs else .uncaught "FileNotFoundError"

/-- `check_init`: true iff the `.init.lock` marker file exists. -/
def check_init (s : WS) : Bool := s.files.contains ".init.lock"

/-- `preflight_checks` from the source: prints the checklist, sets
`checker` to 1 when the btrfs-subvolume check fails, sets it to 1 when
`check_binaries()[1]` is false, and dies when `checker` is non-zero. -/
def preflight_checks (e : Env) : Outcome Unit :=
  match check_btrfs e with
  | .uncaught m => .uncaught m
  | .died m => .died m
  | .ok isB =>
    let checker : Nat := if isB then 0 else 1
    let bins := check_binaries e
    let checker2 : Nat := if bins.2 then checker else 1
    if checker2 ≠ 0 then .died "Some preflight checks failed." else .ok ()

/-- Outcome of one external `btrfs` process invocation as the wrapper sees it: it either completed with an exit status or the spawn
itself raised `OSError`. -/
inductive ProcResult where
  | completed (returncode : Nat)
  | osError
  deriving DecidableEq, Repr

/-- `btrfs_do` from the source: runs `btrfs <command> <action> <volume>`,
dies only when the spawn raises `OSError`, and otherwise returns the
completed process (its exit status) to the caller without inspecting it. -/
def btrfs_do (volume command action : String) (r : ProcResult) : Outcome Nat :=
  match r with
  | .completed rc => .ok rc
  | .osError => .died "Error handling BTRFS object."

/-- True when the outcome is a failure (controlled death or uncaught
exception) rather than a normal return. -/
def isFailure {α : Type} : Outcome α → Bool
  | .ok _ => false
  | .died _ => true
  | .uncaught _ => true

/-- Lower-case hex digit for a value below 16, as `binascii` produces. -/
def hexDigit (n : Nat) : Char :=
  if n < 10 then Char.ofNat (48 + n) else Char.ofNat (87 + n)

/-- Hex encoding of a byte list, two digits per byte, high nibble first. -/
def hexBytes : List Nat → List Char
  | [] => []
  | b :: bs => hexDigit (b / 16) :: hexDigit (b % 16) :: hexBytes bs

/-- `secrets.token_hex(16)` hex-encodes 16 random bytes; the randomness is
made explicit as the byte-list argument. -/
def token_hex (bytes : List Nat) : String := ⟨hexBytes bytes⟩

/-- `gen_cid` from the source: `secrets.token_hex(16)`. -/
def gen_cid (bytes : List Nat) : String := token_hex bytes

/-- The sixteen lower-case hex digit characters. -/
def hexDigits : List Char := "0123456789abcdef".data

/-- Managed top-level files removed by destroy, in source order. -/
def myfiles : List String := ["mkosi.default", "mkosi.rootpw", ".init.lock"]

/-- Managed directories removed by destroy, in source order. -/
def mydirs : List String := ["streams", "services", "buildroot"]

/-- Effect of `shutil.rmtree(d)` on the workspace: the directory and its
contents disappear. -/
def rmTreeState (s : WS) (d : String) : WS :=
  if d = "streams" then { s with dirs := s.dirs.erase d, streamsFiles := [] }
  else if d = "services" then { s with dirs := s.dirs.erase d, servicesFiles := [] }
  else { s with dirs := s.dirs.erase d }

/-- The `os.remove` loop of destroy: removes the files in order; a missing
file raises `FileNotFoundError` (flag `false`), stopping the loop with the
state and trace accumulated so far. -/
def removeFilesLoop : List String → WS → Bool × WS × List Event
  | [], s => (true, s, [])
  | f :: fs, s =>
    if s.files.contains f then
      match removeFilesLoop fs { s with files := s.files.erase f } with
      | (ok, s2, t) => (ok, s2, Event.removeFile f :: t)
    else (false, s, [])

/-- The `shutil.rmtree` loop of destroy over the managed directories; a
missing directory raises `FileNotFoundError` (flag `false`). -/
def rmTreeLoop : List String → WS → Bool × WS × List Event
  | [], s => (true, s, [])
  | d :: ds, s =>
    if s.dirs.contains d then
      match rmTreeLoop ds (rmTreeState s d) with
      | (ok, s2, t) => (ok, s2, Event.rmTree d :: t)
    else (false, s, [])

/-- The volume-deletion loop of `clean`: issues `btrfs subvol delete
build/<v>` for each listed volume.  `btrfs_do` never raises on a non-zero
exit, so the loop always runs to completion. -/
def deleteVolsLoop : List String → WS → WS × List Event
  | [], s => (s, [])
  | v :: vs, s =>
    match deleteVolsLoop vs { s with volumes := s.volumes.erase v } with
    | (s2, t) => (s2, Event.btrfsDelete v :: t)

/-- `clean` from the source.  It first checks root and lists `build/`
(dying with a diagnostic when the directory is absent).  With
`destroy=true` it removes the managed files, then the managed
directories, then every listed volume, then `build/` itself; a missing
file or directory mid-way dies, leaving the state reached so far.  With
`destroy=false` it only deletes the listed volumes (reporting when there
are none). -/
def clean (destroy : Bool) (e : Env) (s : WS) : Outcome Unit × WS × List Event :=
  if ¬ e.isRoot then (.died "Must be invoked as root.", s, [])
  else if ¬ s.dirs.contains "build" then (.died "No files found to remove", s, [])
  else
    let vols := s.volumes
    if destroy then
      match removeFilesLoop myfiles s with
      | (false, s1, t1) => (.died "No files found to remove", s1, t1)
      | (true, s1, t1) =>
        match rmTreeLoop mydirs s1 with
        | (false, s2, t2) => (.died "No files found to remove", s2, t1 ++ t2)
        | (true, s2, t2) =>
          match deleteVolsLoop vols s2 with
          | (s3, t3) =>
            (.ok (), { s3 with dirs := s3.dirs.erase "build", volumes := [] },
             t1 ++ t2 ++ t3 ++ [Event.rmTree "build"])
    else
      if vols.isEmpty then (.ok (), s, [Event.msg "No volumes found for removal."])
      else
        match deleteVolsLoop vols s with
        | (s2, t) => (.ok (), s2, t)

/-- Adds a file if absent (effect of `open(f, mode w)` / `touch` on
presence). -/
def addFile (files : List String) (f : String) : List String :=
  if files.contains f then files else files ++ [f]

/-- The `os.mkdir` loop of `init`: creates each managed directory,
tolerating `FileExistsError` with a diagnostic line. -/
def mkDirsLoop : List String → WS → WS × List Event
  | [], s => (s, [])
  | d :: ds, s =>
    if s.dirs.contains d then
      match mkDirsLoop ds s with
      | (s2, t) => (s2, Event.msg ("Failed to create " ++ d) :: t)
    else
      match mkDirsLoop ds { s with dirs := s.dirs ++ [d] } with
      | (s2, t) => (s2, Event.mkdirEv d :: t)

/-- `init` from the source: root check, already-initialized check (dying
before any mutation), preflight, create the `build` subvolume, fix its
ownership (raising an uncaught `KeyError` when the SUDO_UID/SUDO_GID
variables are absent), create the managed directories, write
`mkosi.default` and `mkosi.rootpw`, and touch the `.init.lock` marker
last. -/
def init (e : Env) (s : WS) : Outcome Unit × WS × List Event :=
  if ¬ e.isRoot then (.died "Must be invoked as root.", s, [])
  else if check_init s then
    (.died "Workspace is already initialized. Operation halted.", s, [])
  else
    match preflight_checks e with
    | .died m => (.died m, s, [Event.preflight])
    | .uncaught m => (.uncaught m, s, [Event.preflight])
    | .ok _ =>
      let s1 := if s.dirs.contains "build" then s else { s with dirs := s.dirs ++ ["build"] }
      if ¬ e.sudoVars then
        (.uncaught "KeyError", s1, [Event.preflight, Event.btrfsCreate "build"])
      else
        match mkDirsLoop mydirs s1 with
        | (s2, t2) =>
          let s3 := { s2 with
            files := addFile (addFile (addFile s2.files "mkosi.default") "mkosi.rootpw") ".init.lock" }
          (.ok (), s3,
           [Event.preflight, Event.btrfsCreate "build"] ++ t2
             ++ [Event.writeFile "mkosi.default", Event.writeFile "mkosi.rootpw", Event.touchLock])

/-- `info` from the source: preflight, then `os.listdir` over `build`,
`streams` and `services` in that order, printing each entry.  A missing
directory raises `FileNotFoundError`, which nothing catches. -/
def info (e : Env) (s : WS) : Outcome Unit × List Event :=
  match preflight_checks e with
  | .died m => (.died m, [Event.preflight])
  | .uncaught m => (.uncaught m, [Event.preflight])
  | .ok _ =>
    if ¬ s.dirs.contains "build" then (.uncaught "FileNotFoundError", [Event.preflight])
    else if ¬ s.dirs.contains "streams" then (.uncaught "FileNotFoundError", [Event.preflight])
    else if ¬ s.dirs.contains "services" then (.uncaught "FileNotFoundError", [Event.preflight])
    else (.ok (), [Event.preflight])

/-- `summary` from the source: preflight, report initialization status,
then run `mkosi summary` (an uncaught `FileNotFoundError` when the mkosi
binary is absent — which preflight does not guarantee). -/
def summary (e : Env) (s : WS) : Outcome Unit × List Event :=
  match preflight_checks e with
  | .died m => (.died m, [Event.preflight])
  | .uncaught m => (.uncaught m, [Event.preflight])
  | .ok _ =>
    let line := if check_init s then "Environment initialized: YES" else "Environment initialized: NO"
    if e.hasMkosi then (.ok (), [Event.preflight, Event.msg line, Event.runMkosi])
    else (.uncaught "FileNotFoundError", [Event.preflight, Event.msg line])

/-- `build` from the source.  Note the order: initialization check, root
check, generate the build identity, create the volume, run mkosi, stamp
the identity into os-release, copy the staging tree into the volume,
remove the staging tree, freeze the volume, compress it.  `build` never
invokes `preflight_checks`. -/
def build (e : Env) (s : WS) (cidBytes : List Nat) : Outcome Unit × WS × List Event :=
  if ¬ check_init s then (.died "Workspace is not initialized. Operation halted.", s, [])
  else if ¬ e.isRoot then (.died "Must be invoked as root.", s, [])
  else
    let cid := gen_cid cidBytes
    let vol := "build/" ++ cid
    let strm := "streams/" ++ cid ++ ".sendstream.zst"
    let volCreated := s.dirs.contains "build"
    let s1 := if volCreated then { s with volumes := s.volumes ++ [cid] } else s
    let t0 := [Event.genCid, Event.btrfsCreate vol]
    if ¬ e.hasMkosi then (.uncaught "FileNotFoundError", s1, t0)
    else
      let t1 := t0 ++ [Event.runMkosi]
      if ¬ e.mkosiOk then (.uncaught "FileNotFoundError", s1, t1)
      else
        let t2 := t1 ++ [Event.writeOsRelease]
        if ¬ volCreated then (.uncaught "DistutilsFileError", s1, t2)
        else
          let t3 := t2 ++ [Event.copyTree, Event.rmTree "buildroot/image", Event.btrfsSetRO vol]
          let t4 := t3 ++ [Event.compressEv vol strm]
          if ¬ e.sudoVars then (.uncaught "KeyError", s1, t4)
          else
            (.ok (), { s1 with streamsFiles := s1.streamsFiles ++ [cid ++ ".sendstream.zst"] }, t4)

/-- Behaviour of the two external processes of `compress_subvol`:
`sent` is the byte stream the `btrfs send` producer wrote into the pipe
before finishing (or dying mid-stream), `sendOk` whether it completed,
`zstdSpawnOk` whether the compressor process could be started, `zstdOk`
whether the compressor exited successfully. -/
structure CompressBehavior where
  sent : List Nat
  sendOk : Bool
  zstdSpawnOk : Bool
  zstdOk : Bool
  deriving DecidableEq, Repr

/-- Content lookup in the artifact filesystem (path to byte content). -/
def fsGet (fs : List (String × List Nat)) (p : String) : Option (List Nat) :=
  fs.lookup p

/-- True when a file exists at the path. -/
def fsHas (fs : List (String × List Nat)) (p : String) : Bool :=
  (fs.lookup p).isSome

/-- `compress_subvol` from the source: spawns `btrfs send` and
`zstd -o dest` connected by a pipe, closes its copy of the pipe, waits
for the compressor, and fixes the ownership of the artifact.  It inspects
the exit status of neither process; `die` happens only when a spawn raises
`OSError`.  When the compressor runs to completion it writes the
compression (`zc`) of whatever bytes arrived — `sendOk` is never
consulted, so a producer dying mid-stream still yields a file at `dest`.
When the compressor itself fails it removes its incomplete output, and
the subsequent `chown` on the missing path raises `FileNotFoundError`
(an `OSError`), which is caught and dies. -/
def compress_subvol (zc : List Nat → List Nat) (b : CompressBehavior) (sudoVars : Bool)
    (dest : String) (fs : List (String × List Nat)) :
    Outcome Unit × List (String × List Nat) :=
  if ¬ b.zstdSpawnOk then (.died "Error in subvolume compress", fs)
  else if b.zstdOk then
    let fs2 := (dest, zc b.sent) :: fs
    if sudoVars then (.ok (), fs2) else (.uncaught "KeyError", fs2)
  else
    (.died "Error in subvolume compress", fs.filter (fun q => q.1 != dest))

/-- A fully equipped environment: root, btrfs cwd, all four binaries,
SUDO variables set, mkosi producing its staging tree. -/
def envOk : Env := ⟨true, true, true, true, true, true, true, true⟩

/-- Like `envOk` but the `mkosi` binary is not resolvable on PATH. -/
def envNoMkosi : Env := ⟨true, true, true, false, true, true, true, true⟩

/-- An initialized workspace holding two volumes and one artifact. -/
def wsReady : WS :=
  ⟨["mkosi.default", "mkosi.rootpw", ".init.lock"],
   ["build", "streams", "services", "buildroot"],
   ["v1", "v2"], ["a.sendstream.zst"], []⟩

/-- Like `wsReady` but the `streams` directory is missing, so the
directory-removal phase of destroy fails. -/
def wsNoStreams : WS :=
  ⟨["mkosi.default", "mkosi.rootpw", ".init.lock"],
   ["build", "services", "buildroot"],
   ["v1", "v2"], [], []⟩

/-- A workspace that was never initialized: nothing exists. -/
def wsBare : WS := ⟨[], [], [], [], []⟩

/-- Sixteen zero bytes, a concrete randomness source for `gen_cid`. -/
def zeroBytes : List Nat := List.replicate 16 0

/-- Claim C2: the spec requires `preflight_checks` to fail whenever any of
the four required binaries (btrfs, mkosi, zstd, gzip) is missing,
regardless of which one.  The code contradicts this: `check_binaries`
overwrites its `status` flag on every loop iteration, so only the last
binary (`gzip`) gates the result.  At the failing input — an otherwise
fully equipped environment whose `mkosi` binary is absent —
`preflight_checks` completes successfully instead of dying. -/
theorem preflight_checks_missing_mkosi_passes :
    which envNoMkosi "mkosi" = false ∧
    preflight_checks envNoMkosi = Outcome.ok () ∧
    isFailure (preflight_checks envNoMkosi) = false := by
  decide

/-- Claim C4 counterexample: a non-zero exit status of the underlying
btrfs process does not make `btrfs_do` fail — the delete verb with exit
status 1 returns normally (the completed process is handed back and its
status is never inspected). -/
theorem btrfs_do_nonzero_ignored_cex :
    btrfs_do "build/v1" "subvol" "delete" (ProcResult.completed 1) = Outcome.ok 1 ∧
    isFailure (btrfs_do "build/v1" "subvol" "delete" (ProcResult.completed 1)) = false := by
  decide

/-- Claim C4 (amended): `btrfs_do` returns the completed process with its
exit status — whatever that status is — without failing, and fails (dies)
only when the spawn itself raises `OSError`. -/
theorem btrfs_do_spec_amended (volume command action : String) (rc : Nat) :
    btrfs_do volume command action (ProcResult.completed rc) = Outcome.ok rc ∧
    btrfs_do volume command action ProcResult.osError
      = Outcome.died "Error handling BTRFS object." := by
  exact ⟨rfl, rfl⟩

/-- Claim C5: running `init` (as root) on a workspace whose `.init.lock`
marker exists dies with the already-initialized diagnostic, leaves the
filesystem state exactly as it was, and performs no effect at all. -/
theorem init_already_initialized (e : Env) (s : WS)
    (hr : e.isRoot = true) (hl : check_init s = true) :
    (init e s).1 = Outcome.died "Workspace is already initialized. Operation halted." ∧
    (init e s).2.1 = s ∧ (init e s).2.2 = [] := by
  simp [init, hr, hl]

/-- Claim C5 witness: the theorem applied to the fully equipped
environment and an initialized workspace. -/
theorem init_already_initialized_witness :
    (init envOk wsReady).1
      = Outcome.died "Workspace is already initialized. Operation halted." ∧
    (init envOk wsReady).2.1 = wsReady ∧ (init envOk wsReady).2.2 = [] :=
  init_already_initialized envOk wsReady (by decide) (by decide)

/-- Claim C6 counterexample: on a never-initialized workspace (no managed
`build/` directory), `clean` with `destroyAll=false` does not complete as
success — it dies with the no-files diagnostic and exit status 1. -/
theorem clean_uninitialized_dies_cex :
    (clean false envOk wsBare).1 = Outcome.died "No files found to remove" ∧
    (clean false envOk wsBare).1 ≠ Outcome.ok () := by
  decide

/-- Claim C6 (amended): on any workspace without a `build/` directory,
`clean` with `destroyAll=false` dies with the diagnostic
"No files found to remove" (non-zero exit) and mutates nothing; the
tolerated zero-volume success exists only for an initialized workspace
whose `build/` directory is present but empty. -/
theorem clean_uninitialized_dies (e : Env) (s : WS)
    (hr : e.isRoot = true) (hb : s.dirs.contains "build" = false) :
    (clean false e s).1 = Outcome.died "No files found to remove" ∧
    (clean false e s).2.1 = s := by
  have hb2 : "build" ∉ s.dirs := by simpa using hb
  simp [clean, hr, hb2]

/-- Claim C6 (amended) witness: the theorem applied to the bare
workspace. -/
theorem clean_uninitialized_dies_witness :
    (clean false envOk wsBare).2.1 = wsBare ∧
    (clean false envOk wsBare).1 = Outcome.died "No files found to remove" :=
  let h := clean_uninitialized_dies envOk wsBare (by decide) (by decide)
  ⟨h.2, h.1⟩

theorem hexBytes_length (bs : List Nat) : (hexBytes bs).length = 2 * bs.length := by
  induction bs with
  | nil => simp [hexBytes]
  | cons b bs ih => simp [hexBytes, ih]; ring

theorem hexDigit_mem (n : Nat) (h : n < 16) : hexDigit n ∈ hexDigits := by
  interval_cases n <;> decide

theorem hexBytes_mem (bs : List Nat) (hb : ∀ b ∈ bs, b < 256) :
    ∀ c ∈ hexBytes bs, c ∈ hexDigits := by
  induction bs with
  | nil => simp [hexBytes]
  | cons b bs ih =>
    intro c hc
    have hb0 : b < 256 := hb b (by simp)
    simp only [hexBytes, List.mem_cons] at hc
    rcases hc with h1 | h1 | h1
    · subst h1; exact hexDigit_mem _ (Nat.div_lt_of_lt_mul (by omega))
    · subst h1; exact hexDigit_mem _ (Nat.mod_lt _ (by omega))
    · exact ih (fun x hx => hb x (by simp [hx])) c h1

/-- Claim C8: every value `gen_cid` produces from sixteen random bytes is
a string of exactly 32 characters, each a (lower-case) hexadecimal
digit. -/
theorem gen_cid_hex32 (bytes : List Nat) (hlen : bytes.length = 16)
    (hb : ∀ b ∈ bytes, b < 256) :
    (gen_cid bytes).length = 32 ∧ ∀ c ∈ (gen_cid bytes).data, c ∈ hexDigits := by
  constructor
  · show (hexBytes bytes).length = 32
    rw [hexBytes_length, hlen]
  · intro c hc
    exact hexBytes_mem bytes hb c hc

/-- Claim C8 witness: the theorem applied to sixteen zero bytes. -/
theorem gen_cid_hex32_witness :
    (gen_cid zeroBytes).length = 32 ∧ ∀ c ∈ (gen_cid zeroBytes).data, c ∈ hexDigits :=
  gen_cid_hex32 zeroBytes (by decide) (by decide)

/-- Claim C9: on a workspace whose managed directories are absent, `info`
(after a passing preflight) terminates with an uncaught
`FileNotFoundError` raised by `os.listdir`, not with a controlled `die`
diagnostic. -/
theorem info_uninitialized_uncaught (e : Env) (s : WS)
    (hp : preflight_checks e = Outcome.ok ())
    (hb : s.dirs.contains "build" = false) :
    (info e s).1 = Outcome.uncaught "FileNotFoundError" ∧
    ∀ m, (info e s).1 ≠ Outcome.died m := by
  have hb2 : "build" ∉ s.dirs := by simpa using hb
  simp [info, hp, hb2]

/-- Claim C9 witness: the theorem applied to the fully equipped
environment and the bare workspace. -/
theorem info_uninitialized_uncaught_witness :
    (info envOk wsBare).1 = Outcome.uncaught "FileNotFoundError" ∧
    ∀ m, (info envOk wsBare).1 ≠ Outcome.died m :=
  info_uninitialized_uncaught envOk wsBare (by decide) (by decide)

/-- Claim C3 counterexample: a run of `compress_subvol` in which the send
producer fails mid-stream (after two bytes, `sendOk = false`) while the
compressor completes leaves a file at the final destination path under
`streams/` and reports success — the destination does hold a truncated
partial artifact. -/
theorem compress_subvol_partial_cex :
    (compress_subvol (fun l => l) ⟨[7, 7], false, true, true⟩ true
      "streams/x.sendstream.zst" []).1 = Outcome.ok () ∧
    fsHas (compress_subvol (fun l => l) ⟨[7, 7], false, true, true⟩ true
      "streams/x.sendstream.zst" []).2 "streams/x.sendstream.zst" = true := by
  decide

/-- Claim C3 (amended): `compress_subvol` never consults the exit status of the producer and writes directly to the final destination; whenever the
compressor runs to completion, the destination holds the compression of
whatever bytes arrived — also when the producer failed mid-stream — and
the call reports success.  No temporary path or atomic rename is
involved. -/
theorem compress_subvol_ignores_send_failure (zc : List Nat → List Nat)
    (sent : List Nat) (sendOk : Bool) (dest : String)
    (fs : List (String × List Nat)) :
    (compress_subvol zc ⟨sent, sendOk, true, true⟩ true dest fs).1 = Outcome.ok () ∧
    fsGet (compress_subvol zc ⟨sent, sendOk, true, true⟩ true dest fs).2 dest
      = some (zc sent) := by
  constructor
  · rfl
  · show fsGet ((dest, zc sent) :: fs) dest = some (zc sent)
    simp [fsGet, List.lookup]

/-- Claim C1 counterexample: a concrete successful `build` run on an
initialized workspace generates the build identity and mutates the
filesystem, yet its trace never contains a preflight invocation —
`build` does not run the preflight checks at all. -/
theorem build_skips_preflight_cex :
    (build envOk wsReady zeroBytes).2.2.contains Event.preflight = false ∧
    (build envOk wsReady zeroBytes).2.2.contains Event.genCid = true ∧
    (build envOk wsReady zeroBytes).2.1 ≠ wsReady := by
  decide

/-- Claim C1 (amended): `info` and `summary` invoke `preflight_checks` as
their very first action, and `init` invokes it before any mutation
(everything preceding it — the root check and the already-initialized
check — leaves the state untouched and produces no effect); `build`,
however, never invokes `preflight_checks`. -/
theorem preflight_gating_amended (e : Env) (s : WS) (b : List Nat) :
    (info e s).2.head? = some Event.preflight ∧
    (summary e s).2.head? = some Event.preflight ∧
    ((init e s).2.2.head? = some Event.preflight ∨
      ((init e s).2.2 = [] ∧ (init e s).2.1 = s)) ∧
    Event.preflight ∉ (build e s b).2.2 := by
  refine ⟨?_, ?_, ?_, ?_⟩
  · cases hp : preflight_checks e with
    | ok a => simp only [info, hp]; split_ifs <;> rfl
    | died m => simp [info, hp]
    | uncaught m => simp [info, hp]
  · cases hp : preflight_checks e with
    | ok a => simp only [summary, hp]; split_ifs <;> rfl
    | died m => simp [summary, hp]
    | uncaught m => simp [summary, hp]
  · cases hro : e.isRoot with
    | false => right; simp [init, hro]
    | true =>
      cases hci : check_init s with
      | true => right; simp [init, hro, hci]
      | false =>
        left
        cases hp : preflight_checks e with
        | died m => simp [init, hro, hci, hp]
        | uncaught m => simp [init, hro, hci, hp]
        | ok a =>
          cases hsv : e.sudoVars with
          | false => simp [init, hro, hci, hp, hsv]
          | true => simp [init, hro, hci, hp, hsv]
  · cases hci : check_init s with
    | false => simp [build, hci]
    | true =>
      cases hro : e.isRoot with
      | false => simp [build, hci, hro]
      | true =>
        by_cases hvc : "build" ∈ s.dirs <;>
          cases hm : e.hasMkosi <;> cases hmo : e.mkosiOk <;> cases hsv : e.sudoVars <;>
          simp [build, hci, hro, hm, hmo, hvc, hsv]

theorem deleteVolsLoop_frame (vs : List String) (s : WS) :
    (deleteVolsLoop vs s).1.files = s.files ∧
    (deleteVolsLoop vs s).1.dirs = s.dirs ∧
    (deleteVolsLoop vs s).1.streamsFiles = s.streamsFiles ∧
    (deleteVolsLoop vs s).1.servicesFiles = s.servicesFiles ∧
    (deleteVolsLoop vs s).2 = vs.map Event.btrfsDelete := by
  induction vs generalizing s with
  | nil => simp [deleteVolsLoop]
  | cons v vs ih => simp [deleteVolsLoop, ih]

theorem deleteVolsLoop_volumes (vs : List String) (s : WS) (h : s.volumes = vs) :
    (deleteVolsLoop vs s).1.volumes = [] := by
  induction vs generalizing s with
  | nil => simp [deleteVolsLoop, h]
  | cons v vs ih =>
    simp only [deleteVolsLoop]
    exact ih _ (by simp [h])

/-- Claim C7: `clean` with `destroyAll=false` on an initialized workspace
(`build/` present) succeeds, deletes exactly the listed volumes, and
leaves everything else unchanged: the top-level files (so also the
`.init.lock` marker, `mkosi.default` and `mkosi.rootpw`), the directory
set, the artifacts under `streams/` and the entries under `services/`
are untouched, and the initialization status is preserved. -/
theorem clean_false_exact_volumes (e : Env) (s : WS)
    (hr : e.isRoot = true) (hb : s.dirs.contains "build" = true) :
    (clean false e s).1 = Outcome.ok () ∧
    (clean false e s).2.1.volumes = [] ∧
    (clean false e s).2.1.files = s.files ∧
    (clean false e s).2.1.dirs = s.dirs ∧
    (clean false e s).2.1.streamsFiles = s.streamsFiles ∧
    (clean false e s).2.1.servicesFiles = s.servicesFiles ∧
    check_init (clean false e s).2.1 = check_init s := by
  have hb2 : "build" ∈ s.dirs := by simpa using hb
  by_cases hv : s.volumes = []
  · simp [clean, hr, hb2, hv, check_init]
  · have hfr := deleteVolsLoop_frame s.volumes s
    have hvol := deleteVolsLoop_volumes s.volumes s rfl
    simp [clean, hr, hb2, hv, check_init, hfr.1, hfr.2.1, hfr.2.2.1, hfr.2.2.2.1, hvol]

/-- Claim C7 witness: the theorem applied to the initialized workspace
holding volumes v1 and v2. -/
theorem clean_false_exact_volumes_witness :
    (clean false envOk wsReady).1 = Outcome.ok () ∧
    (clean false envOk wsReady).2.1.volumes = [] ∧
    (clean false envOk wsReady).2.1.files = wsReady.files ∧
    (clean false envOk wsReady).2.1.dirs = wsReady.dirs ∧
    (clean false envOk wsReady).2.1.streamsFiles = wsReady.streamsFiles ∧
    (clean false envOk wsReady).2.1.servicesFiles = wsReady.servicesFiles ∧
    check_init (clean false envOk wsReady).2.1 = check_init wsReady :=
  clean_false_exact_volumes envOk wsReady (by decide) (by decide)

theorem deleteVolsLoop_trace (vs : List String) (s : WS) :
    (deleteVolsLoop vs s).2 = vs.map Event.btrfsDelete :=
  (deleteVolsLoop_frame vs s).2.2.2.2

/-- Claim C10: during `clean` with `destroyAll=true`, the managed files —
the lock marker included — are removed before any volume is deleted:
when the directory phase succeeds the full trace is the three file
removals, then the three directory removals, then the volume deletions,
then `build/` itself; and when destroy fails right after the file phase
(here: the `streams` directory is missing), the workspace already
reports uninitialized (`check_init` false) while all volumes still
remain under `build/`, no volume deletion having been traced. -/
theorem clean_destroy_lock_before_volumes (e : Env) (s : WS)
    (hr : e.isRoot = true) (hb : s.dirs.contains "build" = true)
    (hnd : s.files.Nodup)
    (hf1 : "mkosi.default" ∈ s.files) (hf2 : "mkosi.rootpw" ∈ s.files)
    (hf3 : ".init.lock" ∈ s.files) :
    (mydirs.all (fun d => s.dirs.contains d) = true →
      (clean true e s).2.2 =
        [Event.removeFile "mkosi.default", Event.removeFile "mkosi.rootpw",
         Event.removeFile ".init.lock", Event.rmTree "streams",
         Event.rmTree "services", Event.rmTree "buildroot"]
        ++ s.volumes.map Event.btrfsDelete ++ [Event.rmTree "build"]) ∧
    (s.dirs.contains "streams" = false →
      (clean true e s).1 = Outcome.died "No files found to remove" ∧
      check_init (clean true e s).2.1 = false ∧
      (clean true e s).2.1.volumes = s.volumes ∧
      (clean true e s).2.2 =
        [Event.removeFile "mkosi.default", Event.removeFile "mkosi.rootpw",
         Event.removeFile ".init.lock"]) := by
  have hb2 : "build" ∈ s.dirs := by simpa using hb
  have m2 : "mkosi.rootpw" ∈ s.files.erase "mkosi.default" :=
    (List.mem_erase_of_ne (by decide)).2 hf2
  have m3 : ".init.lock" ∈ (s.files.erase "mkosi.default").erase "mkosi.rootpw" :=
    (List.mem_erase_of_ne (by decide)).2 ((List.mem_erase_of_ne (by decide)).2 hf3)
  constructor
  · intro hd
    have hd1 : "streams" ∈ s.dirs := by simp [mydirs] at hd; exact hd.1
    have hd2 : "services" ∈ s.dirs := by simp [mydirs] at hd; exact hd.2.1
    have hd3 : "buildroot" ∈ s.dirs := by simp [mydirs] at hd; exact hd.2.2
    have n2 : "services" ∈ s.dirs.erase "streams" :=
      (List.mem_erase_of_ne (by decide)).2 hd2
    have n3 : "buildroot" ∈ (s.dirs.erase "streams").erase "services" :=
      (List.mem_erase_of_ne (by decide)).2 ((List.mem_erase_of_ne (by decide)).2 hd3)
    simp [clean, hr, hb2, myfiles, mydirs, removeFilesLoop, rmTreeLoop, rmTreeState,
          hf1, m2, m3, hd1, n2, n3, deleteVolsLoop_trace]
  · intro hstr
    have hstr2 : "streams" ∉ s.dirs := by simpa using hstr
    have hnl : ".init.lock" ∉
        (((s.files.erase "mkosi.default").erase "mkosi.rootpw").erase ".init.lock") :=
      ((hnd.erase "mkosi.default").erase "mkosi.rootpw").not_mem_erase
    simp [clean, hr, hb2, myfiles, mydirs, removeFilesLoop, rmTreeLoop, check_init,
          hf1, m2, m3, hstr2, hnl]

/-- Claim C10 witness: the theorem applied to the initialized two-volume
workspace (whose managed directories are all present, exercising the
success-ordering branch) and to the same workspace missing its `streams`
directory (exercising the failure-after-file-phase branch). -/
theorem clean_destroy_lock_before_volumes_witness :
    ((clean true envOk wsReady).2.2 =
        [Event.removeFile "mkosi.default", Event.removeFile "mkosi.rootpw",
         Event.removeFile ".init.lock", Event.rmTree "streams",
         Event.rmTree "services", Event.rmTree "buildroot"]
        ++ wsReady.volumes.map Event.btrfsDelete ++ [Event.rmTree "build"]) ∧
    ((clean true envOk wsNoStreams).1 = Outcome.died "No files found to remove" ∧
      check_init (clean true envOk wsNoStreams).2.1 = false ∧
      (clean true envOk wsNoStreams).2.1.volumes = wsNoStreams.volumes ∧
      (clean true envOk wsNoStreams).2.2 =
        [Event.removeFile "mkosi.default", Event.removeFile "mkosi.rootpw",
         Event.removeFile ".init.lock"]) :=
  ⟨(clean_destroy_lock_before_volumes envOk wsReady (by decide) (by decide)
      (by decide) (by decide) (by decide) (by decide)).1 (by decide),
   (clean_destroy_lock_before_volumes envOk wsNoStreams (by decide) (by decide)
      (by decide) (by decide) (by decide) (by decide)).2 (by decide)⟩

end Mkimg
